import Mathlib

/-!
Verification development for the `FaceScanQR` component
(`src/src/pages/FaceScanQR.jsx`).  The file embeds, as executable Lean
definitions, the two variants of the component found in the source:

* the enhanced variant: a face-detection loop driven by
  `requestAnimationFrame` with a 1000 ms stability window and a 3000 ms
  cooldown, restarted whenever any of its effect dependencies
  (`modelLoaded`, `qrImage`, `loading`, `status`) change;
* the shared capture-and-submit routine `scanFace`, the manual
  `resetScan`, and the camera teardown `stopCamera`.

Timestamps are `Nat` milliseconds (`Date.now()`); JavaScript subtraction
compared against a positive constant gives the same verdict as truncated
`Nat` subtraction, since a negative difference and a truncated-to-zero
difference both fail a `> 1000` / `> 3000` test.
-/

namespace FaceScanQR

/-- The user record returned by the remote service (`res.data.data.user`). -/
structure UserRec where
  name : String
  mobile : String
  role : String
deriving DecidableEq, Repr

/-- JavaScript truthiness fallback `m || fb`: an absent or empty message
falls back to `fb`, exactly as `res.data.message || "❌ Face not recognized"`
does in the source. -/
def orFallback : Option String → String → String
  | none, fb => fb
  | some s, fb => if s = "" then fb else s

/-- Status string set on a successful submission (line 172 / 318). -/
def successMarker : String := "✅ QR Generated"

/-- Generic fallback status for a rejected or failed submission
(lines 175, 179 / 321, 325). -/
def notRecognizedFallback : String := "❌ Face not recognized"

/-- Status string set while a submission is in flight (line 145 / 289). -/
def scanningStatus : String := "Scanning face..."

/-- Idle status (line 24 / 241 and `resetScan`). -/
def idleStatus : String := "Idle"

/-- React component state relevant to the claims: `status`, `loading`,
`qrImage`, `user` (lines 12-15 / 241-244). -/
structure CState where
  status : String
  loading : Bool
  qrImage : Option String
  user : Option UserRec
deriving DecidableEq, Repr

/-- How one `scanFace` invocation can end once it has started: the frame
encoding yields a null blob (lines 157-160), the endpoint answers with
`success: true` (169-172), with `success: false` (173-176), or the
request fails with an optional server-supplied error message (177-179). -/
inductive Outcome where
  | nullBlob : Outcome
  | ok : String → UserRec → Outcome
  | notRecognized : Option String → Outcome
  | transportErr : Option String → Outcome
deriving DecidableEq, Repr

/-- The synchronous head of `scanFace` (lines 143-145): the re-entrancy
guard, then `setLoading(true)` and `setStatus("Scanning face...")`.
The boolean reports whether the guard was passed. -/
def scanFaceSync (s : CState) : CState × Bool :=
  if s.loading || s.qrImage.isSome then (s, false)
  else ({ s with loading := true, status := scanningStatus }, true)

/-- The asynchronous tail of `scanFace` (the `toBlob` callback, lines
156-183): outcome handling followed by the `finally { setLoading(false) }`.
The boolean reports whether a network request was issued. -/
def scanFaceAsync (s : CState) : Outcome → CState × Bool
  | Outcome.nullBlob => ({ s with loading := false }, false)
  | Outcome.ok qr u =>
      ({ s with qrImage := some qr, user := some u,
                status := successMarker, loading := false }, true)
  | Outcome.notRecognized msg =>
      ({ s with status := orFallback msg notRecognizedFallback,
                loading := false }, true)
  | Outcome.transportErr msg =>
      ({ s with status := orFallback msg notRecognizedFallback,
                loading := false }, true)

/-- One whole `scanFace` invocation whose submission (if started) ends
with outcome `o`.  Returns the final component state and whether a
network request was issued. -/
def scanFace (s : CState) (o : Outcome) : CState × Bool :=
  if (scanFaceSync s).2 then scanFaceAsync (scanFaceSync s).1 o
  else ((scanFaceSync s).1, false)

/-- `resetScan` (lines 136-140 / 280-284). -/
def resetScan (s : CState) : CState :=
  { s with qrImage := none, user := none, status := idleStatus }

/-- Basic variant, line 272: the auto-scan interval is installed exactly
when no result is displayed, no submission is in flight, and the status
is not the success marker. -/
def basicIntervalActive (s : CState) : Bool :=
  s.qrImage.isNone && !s.loading && !(s.status == successMarker)

/-- A media track of the camera stream; only its active flag matters. -/
structure MediaTrack where
  active : Bool
deriving DecidableEq, Repr

/-- `track.stop()`. -/
def trackStop (_t : MediaTrack) : MediaTrack := { active := false }

/-- `stopCamera` (lines 49-52): stop every track of the bound stream, if
any stream is bound. -/
def stopCamera : Option (List MediaTrack) → Option (List MediaTrack)
  | none => none
  | some ts => some (ts.map trackStop)

/-- Number of still-active tracks of an optional stream. -/
def activeTrackCount : Option (List MediaTrack) → Nat
  | none => 0
  | some ts => (ts.filter (fun t => t.active)).length

/-- `SCAN_COOLDOWN` (line 59). -/
def SCAN_COOLDOWN : Nat := 3000

/-- `DETECTION_STABILITY_DELAY` (line 60). -/
def DETECTION_STABILITY_DELAY : Nat := 1000

/-- The render values captured by the detection-loop effect's closure
(`loading`, `status`, `qrImage`); within one run of the effect they are
constant, since the effect re-runs whenever any of them changes
(dependency array, line 134). -/
structure LoopClosure where
  loading : Bool
  status : String
  qrImage : Option String
deriving DecidableEq, Repr

/-- The two loop-local mutable variables of one run of the detection
effect (lines 57-58). -/
structure LoopVars where
  lastScanTime : Nat
  firstDetectionTime : Nat
deriving DecidableEq, Repr

/-- A processed video frame: its `Date.now()` timestamp and the number
of faces the detector reported for it. -/
structure Frame where
  now : Nat
  faces : Nat
deriving DecidableEq, Repr

/-- Lines 89-91: the stability-timer origin used for frame `f` — the
stored `firstDetectionTime`, or `now` if the timer was unset (0). -/
def stabilityStart (v : LoopVars) (f : Frame) : Nat :=
  if v.firstDetectionTime = 0 then f.now else v.firstDetectionTime

/-- One iteration of `detectFaces` (lines 62-127) on frame `f`: early
return when a result is displayed (line 63); on a detected face start
the stability timer if unset and fire the trigger when the stability
window, the loading flag, the status check and the cooldown all allow it
(line 115), recording `lastScanTime = now` and clearing the stability
timer (lines 116-117); on an empty frame reset the stability timer
(line 123).  Returns the updated loop variables and whether the trigger
fired. -/
def detectFaces (c : LoopClosure) (v : LoopVars) (f : Frame) : LoopVars × Bool :=
  if c.qrImage.isSome then (v, false)
  else if 0 < f.faces then
    if DETECTION_STABILITY_DELAY < f.now - stabilityStart v f ∧
        c.loading = false ∧ c.status ≠ successMarker ∧
        SCAN_COOLDOWN < f.now - v.lastScanTime then
      (⟨f.now, 0⟩, true)
    else (⟨v.lastScanTime, stabilityStart v f⟩, false)
  else (⟨v.lastScanTime, 0⟩, false)

/-- Run one effect instance of the detection loop over a list of frames,
collecting the timestamps at which the trigger fired. -/
def runLoop (c : LoopClosure) (v : LoopVars) : List Frame → LoopVars × List Nat
  | [] => (v, [])
  | f :: fs =>
    let d := detectFaces c v f
    let rest := runLoop c d.1 fs
    (rest.1, if d.2 then f.now :: rest.2 else rest.2)

/-- Whole-component state: the React state, the loop-local variables of
the currently mounted effect instance, and the camera stream. -/
structure SysState where
  comp : CState
  vars : LoopVars
  camera : Option (List MediaTrack)
deriving DecidableEq, Repr

/-- React effect semantics for the detection loop (dependency array
`[modelLoaded, qrImage, loading, status]`, line 134): if any dependency
changed between renders, the effect instance is torn down and restarted,
so both loop-local variables are reinitialized to 0 (lines 57-58);
otherwise the instance and its variables survive. -/
def restartIfChanged (pre post : CState) (v : LoopVars) : LoopVars :=
  if pre.loading = post.loading ∧ pre.status = post.status ∧
      pre.qrImage = post.qrImage then v
  else ⟨0, 0⟩

/-- Events driving the mounted component: a processed video frame, the
completion of the in-flight `scanFace` invocation with some outcome, or
a click on the `resetScan` button. -/
inductive Event where
  | frame : Frame → Event
  | complete : Outcome → Event
  | reset : Event
deriving DecidableEq, Repr

/-- One step of the whole component.  A frame runs `detectFaces`; a
trigger invokes the synchronous head of `scanFace` and, the dependencies
having changed, restarts the effect.  A completion applies the pending
`toBlob` callback (only meaningful while a submission is in flight,
i.e. `loading`).  A reset applies `resetScan`.  Returns the new state
and the trigger timestamp, if the trigger fired. -/
def sysStep (s : SysState) (e : Event) : SysState × Option Nat :=
  match e with
  | Event.frame f =>
    let c : LoopClosure := ⟨s.comp.loading, s.comp.status, s.comp.qrImage⟩
    let d := detectFaces c s.vars f
    if d.2 then
      let c' := (scanFaceSync s.comp).1
      (⟨c', restartIfChanged s.comp c' d.1, s.camera⟩, some f.now)
    else
      (⟨s.comp, d.1, s.camera⟩, none)
  | Event.complete o =>
    if s.comp.loading then
      let c' := (scanFaceAsync s.comp o).1
      (⟨c', restartIfChanged s.comp c' s.vars, s.camera⟩, none)
    else (s, none)
  | Event.reset =>
    let c' := resetScan s.comp
    (⟨c', restartIfChanged s.comp c' s.vars, s.camera⟩, none)

/-- Run the component over a list of events, collecting trigger
timestamps. -/
def runSys (s : SysState) : List Event → SysState × List Nat
  | [] => (s, [])
  | e :: es =>
    let st := sysStep s e
    let rest := runSys st.1 es
    (rest.1, match st.2 with
             | some t => t :: rest.2
             | none => rest.2)

/-- Component state right after the model loads (lines 23-25): status
`Idle`, nothing in flight, no result, fresh loop variables, and whatever
stream the camera acquisition produced. -/
def initSys (cam : Option (List MediaTrack)) : SysState :=
  ⟨⟨idleStatus, false, none, none⟩, ⟨0, 0⟩, cam⟩

/-- States the mounted component can actually be in. -/
def Reachable (s : SysState) : Prop :=
  ∃ cam es, (runSys (initSys cam) es).1 = s

/-- The detection loop is armed: some future frame sequence makes the
trigger fire without any manual intervention. -/
def armed (s : SysState) : Prop :=
  ∃ fs : List Frame, (runSys s (fs.map Event.frame)).2 ≠ []

/-- Component teardown (line 33): `stopCamera` on the bound stream. -/
def unmount (s : SysState) : SysState :=
  { s with camera := stopCamera s.camera }

/-! ### Facts about a single `detectFaces` iteration -/

/-- The trigger fires on frame `f` exactly when no result is displayed,
a face is present, the (possibly just-started) stability window has
elapsed, nothing is loading, the status is not the success marker, and
the cooldown since `lastScanTime` has elapsed. -/
theorem detectFaces_snd_true_iff (c : LoopClosure) (v : LoopVars) (f : Frame) :
    (detectFaces c v f).2 = true ↔
      c.qrImage = none ∧ 0 < f.faces ∧
      DETECTION_STABILITY_DELAY < f.now - stabilityStart v f ∧
      c.loading = false ∧ c.status ≠ successMarker ∧
      SCAN_COOLDOWN < f.now - v.lastScanTime := by
  unfold detectFaces
  split_ifs with h1 h2 h3
  · simp only [Option.isSome_iff_exists] at h1
    obtain ⟨a, ha⟩ := h1
    simp [ha]
  · simp only [true_iff, eq_self_iff_true]
    refine ⟨?_, h2, h3.1, h3.2.1, h3.2.2.1, h3.2.2.2⟩
    cases hq : c.qrImage with
    | none => rfl
    | some a => rw [hq] at h1; simp at h1
  · simp only [Bool.false_eq_true, false_iff]
    intro h
    exact h3 ⟨h.2.2.1, h.2.2.2⟩
  · simp only [Bool.false_eq_true, false_iff]
    intro h
    exact h2 h.2.1

/-- On a trigger the loop variables become `⟨f.now, 0⟩` (lines 116-117). -/
theorem detectFaces_fst_of_trig {c : LoopClosure} {v : LoopVars} {f : Frame}
    (h : (detectFaces c v f).2 = true) :
    (detectFaces c v f).1 = ⟨f.now, 0⟩ := by
  unfold detectFaces at h ⊢
  split_ifs at h ⊢
  rfl

/-- Without a trigger, `lastScanTime` is unchanged. -/
theorem detectFaces_lastScan_of_not_trig {c : LoopClosure} {v : LoopVars} {f : Frame}
    (h : (detectFaces c v f).2 = false) :
    (detectFaces c v f).1.lastScanTime = v.lastScanTime := by
  unfold detectFaces at h ⊢
  split_ifs at h ⊢ <;> rfl

/-- At a trigger the stored stability timer was already running
(`firstDetectionTime ≠ 0`) and had been running for more than the
stability window, and the cooldown bound holds as an addition. -/
theorem detectFaces_trig_bounds {c : LoopClosure} {v : LoopVars} {f : Frame}
    (h : (detectFaces c v f).2 = true) :
    v.firstDetectionTime ≠ 0 ∧
    v.firstDetectionTime + DETECTION_STABILITY_DELAY < f.now ∧
    v.lastScanTime + SCAN_COOLDOWN < f.now := by
  obtain ⟨-, -, hstab, -, -, hcool⟩ := (detectFaces_snd_true_iff c v f).1 h
  unfold stabilityStart at hstab
  by_cases h0 : v.firstDetectionTime = 0
  · rw [if_pos h0] at hstab
    unfold DETECTION_STABILITY_DELAY at hstab
    omega
  · rw [if_neg h0] at hstab
    exact ⟨h0, by omega, by omega⟩

/-- With a result displayed in the closure, an effect instance never
fires the trigger (line 63). -/
theorem runLoop_of_qrImage_isSome (c : LoopClosure) (h : c.qrImage.isSome) :
    ∀ (fs : List Frame) (v : LoopVars), (runLoop c v fs).2 = [] := by
  intro fs
  induction fs with
  | nil => intro v; rfl
  | cons f fs ih =>
    intro v
    have hd : detectFaces c v f = (v, false) := by
      unfold detectFaces
      rw [if_pos h]
    simp [runLoop, hd, ih]

/-! ### Per-instance cooldown and stability -/

/-- Within one effect instance, every trigger time exceeds the incoming
`lastScanTime` by more than the cooldown, and consecutive trigger times
are more than the cooldown apart. -/
theorem runLoop_cooldown (c : LoopClosure) :
    ∀ (fs : List Frame) (v : LoopVars),
      (∀ t ∈ (runLoop c v fs).2, v.lastScanTime + SCAN_COOLDOWN < t) ∧
      List.Chain' (fun a b => a + SCAN_COOLDOWN < b) (runLoop c v fs).2 := by
  intro fs
  induction fs with
  | nil => intro v; simp [runLoop]
  | cons f fs ih =>
    intro v
    by_cases hd : (detectFaces c v f).2 = true
    · have hfst := detectFaces_fst_of_trig hd
      have hcool := (detectFaces_trig_bounds hd).2.2
      have hrun : (runLoop c v (f :: fs)).2 =
          f.now :: (runLoop c (⟨f.now, 0⟩ : LoopVars) fs).2 := by
        simp only [runLoop, hd, if_true, hfst]
      obtain ⟨ihb, ihc⟩ := ih (⟨f.now, 0⟩ : LoopVars)
      rw [hrun]
      constructor
      · intro t ht
        rcases List.mem_cons.1 ht with h | h
        · omega
        · have := ihb t h
          simp only at this
          omega
      · refine List.chain'_cons'.2 ⟨?_, ihc⟩
        intro y hy
        have hmem := List.mem_of_mem_head? hy
        have := ihb y hmem
        simpa using this
    · have hd' : (detectFaces c v f).2 = false := by
        cases h : (detectFaces c v f).2
        · rfl
        · exact absurd h hd
      have hlast := detectFaces_lastScan_of_not_trig hd'
      have hrun : (runLoop c v (f :: fs)).2 =
          (runLoop c (detectFaces c v f).1 fs).2 := by
        simp only [runLoop, hd', if_false, Bool.false_eq_true]
      obtain ⟨ihb, ihc⟩ := ih (detectFaces c v f).1
      rw [hrun]
      exact ⟨fun t ht => by have := ihb t ht; omega, ihc⟩

/-- Within one effect instance, every trigger at time `t` is preceded by
a stability-window start `t0` with `t0 + 1000 < t` such that every frame
of the instance falling in `[t0, t]` had a detected face; moreover `t0`
is the incoming (nonzero) `firstDetectionTime` or the timestamp of a
detected frame of the instance. -/
theorem runLoop_stability (c : LoopClosure) :
    ∀ (fs : List Frame) (v : LoopVars),
      fs.Pairwise (fun a b => a.now < b.now) →
      ∀ t ∈ (runLoop c v fs).2,
        ∃ t0, t0 + DETECTION_STABILITY_DELAY < t ∧
          (∀ g ∈ fs, t0 ≤ g.now → g.now ≤ t → 0 < g.faces) ∧
          ((v.firstDetectionTime ≠ 0 ∧ t0 = v.firstDetectionTime) ∨
            (∃ g ∈ fs, t0 = g.now ∧ 0 < g.faces)) := by
  intro fs
  induction fs with
  | nil => intro v _ t ht; simp [runLoop] at ht
  | cons f fs ih =>
    intro v hp t ht
    obtain ⟨hf, hfs⟩ := List.pairwise_cons.1 hp
    by_cases hq : c.qrImage.isSome
    · rw [runLoop_of_qrImage_isSome c hq (f :: fs) v] at ht
      cases ht
    have hqn : c.qrImage = none := by
      cases hqe : c.qrImage with
      | none => rfl
      | some a => rw [hqe] at hq; simp at hq
    by_cases hd : (detectFaces c v f).2 = true
    · -- head frame triggered
      have hfst := detectFaces_fst_of_trig hd
      obtain ⟨hne, hstab, -⟩ := detectFaces_trig_bounds hd
      have hfaces : 0 < f.faces := ((detectFaces_snd_true_iff c v f).1 hd).2.1
      have hrun : (runLoop c v (f :: fs)).2 =
          f.now :: (runLoop c (⟨f.now, 0⟩ : LoopVars) fs).2 := by
        simp only [runLoop, hd, if_true, hfst]
      rw [hrun] at ht
      rcases List.mem_cons.1 ht with rfl | hrest
      · refine ⟨v.firstDetectionTime, hstab, ?_, Or.inl ⟨hne, rfl⟩⟩
        intro g hg _ hgle
        rcases List.mem_cons.1 hg with rfl | hg'
        · exact hfaces
        · exact absurd hgle (by have := hf g hg'; omega)
      · obtain ⟨t0, hlt, hstreak, hdisj⟩ := ih (⟨f.now, 0⟩ : LoopVars) hfs t hrest
        rcases hdisj with ⟨hne0, -⟩ | ⟨g, hg, hgeq, hgf⟩
        · exact absurd rfl hne0
        · refine ⟨t0, hlt, ?_, Or.inr ⟨g, List.mem_cons_of_mem f hg, hgeq, hgf⟩⟩
          intro g' hg' h1 h2
          rcases List.mem_cons.1 hg' with rfl | hg''
          · exact hfaces
          · exact hstreak g' hg'' h1 h2
    · have hd' : (detectFaces c v f).2 = false := by
        cases h : (detectFaces c v f).2
        · rfl
        · exact absurd h hd
      have hrun : (runLoop c v (f :: fs)).2 =
          (runLoop c (detectFaces c v f).1 fs).2 := by
        simp only [runLoop, hd', if_false, Bool.false_eq_true]
      rw [hrun] at ht
      obtain ⟨t0, hlt, hstreak, hdisj⟩ := ih (detectFaces c v f).1 hfs t ht
      by_cases hfc : 0 < f.faces
      · -- head frame detected, no trigger: timer = stabilityStart v f
        have hv' : (detectFaces c v f).1 = ⟨v.lastScanTime, stabilityStart v f⟩ := by
          unfold detectFaces
          rw [if_neg (by simp [hqn]), if_pos hfc, if_neg]
          intro hcond
          exact hd ((detectFaces_snd_true_iff c v f).2
            ⟨hqn, hfc, hcond.1, hcond.2.1, hcond.2.2.1, hcond.2.2.2⟩)
        refine ⟨t0, hlt, ?_, ?_⟩
        · intro g hg h1 h2
          rcases List.mem_cons.1 hg with rfl | hg'
          · exact hfc
          · exact hstreak g hg' h1 h2
        · rcases hdisj with ⟨hne0, ht0⟩ | ⟨g, hg, hgeq, hgf⟩
          · rw [hv'] at hne0 ht0
            simp only at hne0 ht0
            unfold stabilityStart at hne0 ht0
            by_cases h0 : v.firstDetectionTime = 0
            · rw [if_pos h0] at ht0
              exact Or.inr ⟨f, List.mem_cons_self f fs, ht0, hfc⟩
            · rw [if_neg h0] at ht0
              exact Or.inl ⟨h0, ht0⟩
          · exact Or.inr ⟨g, List.mem_cons_of_mem f hg, hgeq, hgf⟩
      · -- empty frame: timer reset to 0
        have hv' : (detectFaces c v f).1 = ⟨v.lastScanTime, 0⟩ := by
          unfold detectFaces
          rw [if_neg (by simp [hqn]), if_neg hfc]
        rcases hdisj with ⟨hne0, -⟩ | ⟨g, hg, hgeq, hgf⟩
        · rw [hv'] at hne0
          exact absurd rfl hne0
        · refine ⟨t0, hlt, ?_, Or.inr ⟨g, List.mem_cons_of_mem f hg, hgeq, hgf⟩⟩
          intro g' hg' h1 h2
          rcases List.mem_cons.1 hg' with rfl | hg''
          · exact absurd h1 (by have := hf g hg; omega)
          · exact hstreak g' hg'' h1 h2

/-! ### System-level invariants -/

/-- The `toBlob` callback always ends with `setLoading(false)` (the null
blob early-out at line 158, or the `finally` block at line 181). -/
theorem scanFaceAsync_loading (s : CState) (o : Outcome) :
    (scanFaceAsync s o).1.loading = false := by
  cases o <;> rfl

/-- The `toBlob` callback never clears a displayed result. -/
theorem scanFaceAsync_qrImage_isSome (s : CState) (o : Outcome)
    (h : s.qrImage.isSome) : ((scanFaceAsync s o).1.qrImage).isSome := by
  cases o with
  | ok qr u => rfl
  | nullBlob => exact h
  | notRecognized msg => exact h
  | transportErr msg => exact h

/-- If the effect dependencies differ between renders, the effect
instance is restarted with fresh loop variables. -/
theorem restartIfChanged_of_ne {pre post : CState} (v : LoopVars)
    (h : ¬(pre.loading = post.loading ∧ pre.status = post.status ∧
           pre.qrImage = post.qrImage)) :
    restartIfChanged pre post v = ⟨0, 0⟩ := by
  unfold restartIfChanged
  rw [if_neg h]

/-- While a result is displayed, no event other than a reset can remove
it, and no trigger fires (line 63 and the `status` guard at line 115). -/
theorem runSys_no_trig_of_qrImage :
    ∀ (es : List Event) (s : SysState), Event.reset ∉ es →
      s.comp.qrImage.isSome → (runSys s es).2 = [] := by
  intro es
  induction es with
  | nil => intro s _ _; rfl
  | cons e es ih =>
    intro s hmem hq
    have hmem' : Event.reset ∉ es := fun h => hmem (List.mem_cons_of_mem e h)
    cases e with
    | frame f =>
      have hd : detectFaces ⟨s.comp.loading, s.comp.status, s.comp.qrImage⟩
          s.vars f = (s.vars, false) := by
        unfold detectFaces
        rw [if_pos hq]
      simp only [runSys, sysStep, hd, if_false, Bool.false_eq_true]
      exact ih ⟨s.comp, s.vars, s.camera⟩ hmem' hq
    | complete o =>
      by_cases hl : s.comp.loading = true
      · simp only [runSys, sysStep, hl, if_true]
        exact ih _ hmem' (scanFaceAsync_qrImage_isSome s.comp o hq)
      · have hl' : s.comp.loading = false := by
          cases h : s.comp.loading
          · rfl
          · exact absurd h hl
        simp only [runSys, sysStep, hl', if_false, Bool.false_eq_true]
        exact ih s hmem' hq
    | reset => exact absurd (List.mem_cons_self _ _) hmem

/-- Once the status equals the success marker, frames alone never fire
the trigger again (line 115 compares against the current status). -/
theorem runSys_no_trig_of_marker :
    ∀ (fs : List Frame) (s : SysState), s.comp.status = successMarker →
      (runSys s (fs.map Event.frame)).2 = [] := by
  intro fs
  induction fs with
  | nil => intro s _; rfl
  | cons f fs ih =>
    intro s hst
    have hd : (detectFaces ⟨s.comp.loading, s.comp.status, s.comp.qrImage⟩
        s.vars f).2 = false := by
      cases h : (detectFaces ⟨s.comp.loading, s.comp.status, s.comp.qrImage⟩
          s.vars f).2
      · rfl
      · obtain ⟨-, -, -, -, hne, -⟩ := (detectFaces_snd_true_iff _ _ _).1 h
        exact absurd hst hne
    simp only [List.map, runSys, sysStep, hd, if_false, Bool.false_eq_true]
    exact ih ⟨s.comp, _, s.camera⟩ hst

/-- Invariant: a displayed result implies nothing is in flight. -/
def LoadInv (s : SysState) : Prop :=
  s.comp.qrImage.isSome → s.comp.loading = false

/-- `LoadInv` is preserved by every event. -/
theorem loadInv_step (s : SysState) (e : Event) (h : LoadInv s) :
    LoadInv (sysStep s e).1 := by
  cases e with
  | frame f =>
    by_cases hd : (detectFaces ⟨s.comp.loading, s.comp.status, s.comp.qrImage⟩
        s.vars f).2 = true
    · have hq : s.comp.qrImage = none :=
        ((detectFaces_snd_true_iff _ _ _).1 hd).1
      simp only [sysStep, hd, if_true]
      intro hq'
      unfold scanFaceSync at hq'
      split_ifs at hq' with hg
      · rw [hq] at hq'
        cases hq'
      · rw [hq] at hq'
        cases hq'
    · have hd' : (detectFaces ⟨s.comp.loading, s.comp.status, s.comp.qrImage⟩
          s.vars f).2 = false := by
        cases hh : (detectFaces ⟨s.comp.loading, s.comp.status, s.comp.qrImage⟩
            s.vars f).2
        · rfl
        · exact absurd hh hd
      simp only [sysStep, hd', if_false, Bool.false_eq_true]
      exact h
  | complete o =>
    by_cases hl : s.comp.loading = true
    · simp only [sysStep, hl, if_true]
      intro _
      exact scanFaceAsync_loading s.comp o
    · have hl' : s.comp.loading = false := by
        cases hh : s.comp.loading
        · rfl
        · exact absurd hh hl
      simp only [sysStep, hl', if_false, Bool.false_eq_true]
      exact h
  | reset =>
    simp only [sysStep]
    intro hq
    cases hq

/-- `LoadInv` is preserved by every run. -/
theorem loadInv_run :
    ∀ (es : List Event) (s : SysState), LoadInv s → LoadInv (runSys s es).1 := by
  intro es
  induction es with
  | nil => intro s h; exact h
  | cons e es ih => intro s h; exact ih _ (loadInv_step s e h)

/-- Every reachable component state satisfies `LoadInv`. -/
theorem reachable_loadInv (s : SysState) (h : Reachable s) : LoadInv s := by
  obtain ⟨cam, es, rfl⟩ := h
  exact loadInv_run es (initSys cam) (fun hq => by cases hq)

/-- From a fresh effect instance with nothing in flight, no result and a
non-success status, two detected frames (at 1 ms and 3002 ms) make the
trigger fire: the loop is armed. -/
theorem armed_of (s : SysState) (hl : s.comp.loading = false)
    (hq : s.comp.qrImage = none) (hst : s.comp.status ≠ successMarker)
    (hv : s.vars = ⟨0, 0⟩) : armed s := by
  refine ⟨[⟨1, 1⟩, ⟨3002, 1⟩], ?_⟩
  have hd1 : detectFaces ⟨s.comp.loading, s.comp.status, s.comp.qrImage⟩
      s.vars ⟨1, 1⟩ = (⟨0, 1⟩, false) := by
    rw [hv]
    unfold detectFaces
    split_ifs with h1 h2 h3
    · simp [hq] at h1
    · exact absurd h3.1 (by decide)
    · rfl
    · exact absurd (by decide) h2
  have hd2 : (detectFaces ⟨s.comp.loading, s.comp.status, s.comp.qrImage⟩
      (⟨0, 1⟩ : LoopVars) ⟨3002, 1⟩).2 = true := by
    apply (detectFaces_snd_true_iff _ _ _).2
    exact ⟨hq, by decide, by decide, hl, hst, by decide⟩
  simp only [List.map, runSys, sysStep, hd1, if_false, Bool.false_eq_true, hd2,
    if_true]
  simp

/-- Helper for C8: stopping every track of a stream leaves no active
track. -/
theorem filter_active_map_trackStop (ts : List MediaTrack) :
    (ts.map trackStop).filter (fun t => t.active) = [] := by
  induction ts with
  | nil => rfl
  | cons t ts ih => simp [trackStop, ih]

/-! ### The claims -/

/-- C1, counterexample: the claim "two consecutive triggers are never
separated by less than 3000 ms" is false for the whole component.  On
the concrete run below the trigger fires at 4501 ms, the submission
completes (failure response), the effect restarts with `lastScanTime`
erased, and the trigger fires again at 5700 ms — only 1199 ms later. -/
theorem C1_claim_counterexample :
    (runSys (initSys none) [Event.frame ⟨3000, 1⟩, Event.frame ⟨4501, 1⟩,
      Event.complete (Outcome.notRecognized none), Event.frame ⟨4600, 1⟩,
      Event.frame ⟨5700, 1⟩]).2 = [4501, 5700] ∧
    5700 - 4501 < SCAN_COOLDOWN := by
  exact ⟨by decide, by decide⟩

/-- C1, amended: within a single run of the detection-loop effect (no
intervening change of `loading`, `status` or `qrImage`), for every
chronological sequence of detection frames the trigger fires only after
more than 1000 ms of uninterrupted detection (all frames in a window of
length > 1000 ms ending at the trigger had a face), and two consecutive
triggers are separated by more than 3000 ms. -/
theorem C1_amended_trigger_discipline (c : LoopClosure) (fs : List Frame)
    (hs : fs.Pairwise (fun a b => a.now < b.now)) :
    List.Chain' (fun a b => a + SCAN_COOLDOWN < b) (runLoop c ⟨0, 0⟩ fs).2 ∧
    ∀ t ∈ (runLoop c ⟨0, 0⟩ fs).2,
      ∃ t0, t0 + DETECTION_STABILITY_DELAY < t ∧
        ∀ g ∈ fs, t0 ≤ g.now → g.now ≤ t → 0 < g.faces := by
  refine ⟨(runLoop_cooldown c fs ⟨0, 0⟩).2, ?_⟩
  intro t ht
  obtain ⟨t0, h1, h2, -⟩ := runLoop_stability c fs ⟨0, 0⟩ hs t ht
  exact ⟨t0, h1, h2⟩

/-- C1, witness for the amended theorem at a concrete frame sequence. -/
theorem C1_amended_trigger_discipline_witness :
    ([⟨3000, 1⟩, ⟨4501, 1⟩] : List Frame).Pairwise (fun a b => a.now < b.now) ∧
    (List.Chain' (fun a b => a + SCAN_COOLDOWN < b)
        (runLoop ⟨false, idleStatus, none⟩ ⟨0, 0⟩ [⟨3000, 1⟩, ⟨4501, 1⟩]).2 ∧
      ∀ t ∈ (runLoop ⟨false, idleStatus, none⟩ ⟨0, 0⟩ [⟨3000, 1⟩, ⟨4501, 1⟩]).2,
        ∃ t0, t0 + DETECTION_STABILITY_DELAY < t ∧
          ∀ g ∈ ([⟨3000, 1⟩, ⟨4501, 1⟩] : List Frame),
            t0 ≤ g.now → g.now ≤ t → 0 < g.faces) :=
  ⟨by decide, C1_amended_trigger_discipline ⟨false, idleStatus, none⟩
    [⟨3000, 1⟩, ⟨4501, 1⟩] (by decide)⟩

/-- C2: every `scanFace` invocation that passes the re-entrancy guard
ends with `loading = false`, whatever the outcome (success, soft
failure, transport error, or a null encoded blob). -/
theorem C2_loading_released (s : CState) (o : Outcome)
    (hl : s.loading = false) (hq : s.qrImage = none) :
    (scanFace s o).1.loading = false := by
  have hg : scanFaceSync s =
      ({ s with loading := true, status := scanningStatus }, true) := by
    unfold scanFaceSync
    rw [hl, hq]
    rfl
  unfold scanFace
  rw [hg, if_pos rfl]
  exact scanFaceAsync_loading _ o

/-- C2, witness. -/
theorem C2_loading_released_witness :
    ((⟨idleStatus, false, none, none⟩ : CState).loading = false) ∧
    (scanFace ⟨idleStatus, false, none, none⟩ Outcome.nullBlob).1.loading = false :=
  ⟨rfl, C2_loading_released ⟨idleStatus, false, none, none⟩ Outcome.nullBlob rfl rfl⟩

/-- C3: a `success: true` response stores the QR image and user record,
sets the success marker, and afterwards no trigger fires on any event
sequence that does not contain a `resetScan`. -/
theorem C3_success_halts_until_reset (s : CState) (qr : String) (u : UserRec)
    (hl : s.loading = false) (hq : s.qrImage = none)
    (v : LoopVars) (cam : Option (List MediaTrack))
    (es : List Event) (hres : Event.reset ∉ es) :
    (scanFace s (Outcome.ok qr u)).1.qrImage = some qr ∧
    (scanFace s (Outcome.ok qr u)).1.user = some u ∧
    (scanFace s (Outcome.ok qr u)).1.status = successMarker ∧
    (runSys ⟨(scanFace s (Outcome.ok qr u)).1, v, cam⟩ es).2 = [] := by
  have hg : scanFaceSync s =
      ({ s with loading := true, status := scanningStatus }, true) := by
    unfold scanFaceSync
    rw [hl, hq]
    rfl
  have hsf : (scanFace s (Outcome.ok qr u)).1 =
      { s with qrImage := some qr, user := some u,
               status := successMarker, loading := false } := by
    unfold scanFace
    rw [hg, if_pos rfl]
    rfl
  rw [hsf]
  exact ⟨rfl, rfl, rfl, runSys_no_trig_of_qrImage es _ hres rfl⟩

/-- C3, witness. -/
theorem C3_success_halts_until_reset_witness :
    ((⟨idleStatus, false, none, none⟩ : CState).loading = false) ∧
    (Event.frame ⟨9999, 1⟩ ∉ [] : Prop) ∧
    (scanFace ⟨idleStatus, false, none, none⟩
      (Outcome.ok "qr-img" ⟨"A", "9", "staff"⟩)).1.qrImage = some "qr-img" ∧
    (scanFace ⟨idleStatus, false, none, none⟩
      (Outcome.ok "qr-img" ⟨"A", "9", "staff"⟩)).1.user = some ⟨"A", "9", "staff"⟩ ∧
    (scanFace ⟨idleStatus, false, none, none⟩
      (Outcome.ok "qr-img" ⟨"A", "9", "staff"⟩)).1.status = successMarker ∧
    (runSys ⟨(scanFace ⟨idleStatus, false, none, none⟩
        (Outcome.ok "qr-img" ⟨"A", "9", "staff"⟩)).1, ⟨0, 0⟩, none⟩
      [Event.frame ⟨9999, 1⟩, Event.frame ⟨99999, 1⟩]).2 = [] :=
  ⟨rfl, by decide,
    C3_success_halts_until_reset ⟨idleStatus, false, none, none⟩
      "qr-img" ⟨"A", "9", "staff"⟩ rfl rfl ⟨0, 0⟩ none
      [Event.frame ⟨9999, 1⟩, Event.frame ⟨99999, 1⟩] (by decide)⟩

/-- C4: with a submission in flight or a result displayed, `scanFace`
is a no-op — the state is unchanged and no request is issued. -/
theorem C4_reentrancy_guard_noop (s : CState) (o : Outcome)
    (h : s.loading = true ∨ s.qrImage.isSome) :
    scanFace s o = (s, false) := by
  have hg : scanFaceSync s = (s, false) := by
    unfold scanFaceSync
    rcases h with h | h
    · rw [h]
      rfl
    · rw [h, Bool.or_true]
      rfl
  unfold scanFace
  rw [hg]
  rfl

/-- C4, witness. -/
theorem C4_reentrancy_guard_noop_witness :
    ((⟨scanningStatus, true, none, none⟩ : CState).loading = true ∨
      (⟨scanningStatus, true, none, none⟩ : CState).qrImage.isSome) ∧
    scanFace ⟨scanningStatus, true, none, none⟩
        (Outcome.ok "q" ⟨"n", "m", "r"⟩) =
      (⟨scanningStatus, true, none, none⟩, false) :=
  ⟨Or.inl rfl, C4_reentrancy_guard_noop ⟨scanningStatus, true, none, none⟩
    (Outcome.ok "q" ⟨"n", "m", "r"⟩) (Or.inl rfl)⟩

/-- C5: while the loop is active (no result displayed), a zero-face
frame resets the stability timer to 0 without triggering, and any later
trigger at time `t` needs a window of more than 1000 ms ending at `t`
that starts at a detected frame of the subsequent sequence and contains
only detected frames — no carry-over of earlier partial progress. -/
theorem C5_lost_detection_resets (c : LoopClosure) (v : LoopVars) (n : Nat)
    (hq : c.qrImage = none) (fs : List Frame)
    (hs : fs.Pairwise (fun a b => a.now < b.now)) :
    detectFaces c v ⟨n, 0⟩ = (⟨v.lastScanTime, 0⟩, false) ∧
    ∀ t ∈ (runLoop c ⟨v.lastScanTime, 0⟩ fs).2,
      ∃ t0, (∃ g ∈ fs, t0 = g.now ∧ 0 < g.faces) ∧
        t0 + DETECTION_STABILITY_DELAY < t ∧
        ∀ g ∈ fs, t0 ≤ g.now → g.now ≤ t → 0 < g.faces := by
  constructor
  · unfold detectFaces
    rw [if_neg (by simp [hq]), if_neg (by simp)]
  · intro t ht
    obtain ⟨t0, h1, h2, hdisj⟩ :=
      runLoop_stability c fs ⟨v.lastScanTime, 0⟩ hs t ht
    rcases hdisj with ⟨hne, -⟩ | hg
    · exact absurd rfl hne
    · exact ⟨t0, hg, h1, h2⟩

/-- C5, witness: after losing the face at 600 ms (with 500 ms of prior
progress), the trigger needs a fresh full window. -/
theorem C5_lost_detection_resets_witness :
    ((⟨false, idleStatus, none⟩ : LoopClosure).qrImage = none) ∧
    ([⟨700, 1⟩, ⟨1701, 1⟩] : List Frame).Pairwise (fun a b => a.now < b.now) ∧
    detectFaces ⟨false, idleStatus, none⟩ ⟨0, 500⟩ ⟨600, 0⟩ = (⟨0, 0⟩, false) ∧
    ∀ t ∈ (runLoop ⟨false, idleStatus, none⟩ ⟨0, 0⟩
        ([⟨700, 1⟩, ⟨1701, 1⟩] : List Frame)).2,
      ∃ t0, (∃ g ∈ ([⟨700, 1⟩, ⟨1701, 1⟩] : List Frame), t0 = g.now ∧ 0 < g.faces) ∧
        t0 + DETECTION_STABILITY_DELAY < t ∧
        ∀ g ∈ ([⟨700, 1⟩, ⟨1701, 1⟩] : List Frame),
          t0 ≤ g.now → g.now ≤ t → 0 < g.faces := by
  have h := C5_lost_detection_resets ⟨false, idleStatus, none⟩
    ⟨0, 500⟩ 600 rfl [⟨700, 1⟩, ⟨1701, 1⟩] (by decide)
  exact ⟨rfl, by decide, h.1, h.2⟩

/-- C6, counterexample: the claim "in both cases the loop remains armed
and the next natural trigger retries" fails when the server's
`success: false` message equals the success marker string: the status
check at line 115 then blocks every further trigger until a manual
reset, so the resulting state is not armed. -/
theorem C6_claim_counterexample :
    ((sysStep ⟨⟨scanningStatus, true, none, none⟩, ⟨0, 0⟩, none⟩
        (Event.complete (Outcome.notRecognized (some successMarker)))).1.comp.status
      = successMarker) ∧
    ¬ armed (sysStep ⟨⟨scanningStatus, true, none, none⟩, ⟨0, 0⟩, none⟩
        (Event.complete (Outcome.notRecognized (some successMarker)))).1 := by
  refine ⟨by decide, ?_⟩
  intro h
  obtain ⟨fs, hne⟩ := h
  exact hne (runSys_no_trig_of_marker fs _ (by decide))

/-- C6, amended: on a `success: false` response or a transport/server
error, the status becomes the server-supplied message when present and
non-empty (JavaScript truthiness), else the generic not-recognized
fallback; `loading` returns to false; and provided the resulting status
is not the success marker, the loop remains armed (enhanced variant) and
the basic variant's auto-scan interval stays installed. -/
theorem C6_amended_failure_handling (s : SysState) (msg : Option String)
    (hl : s.comp.loading = true) (hq : s.comp.qrImage = none) :
    ((sysStep s (Event.complete (Outcome.notRecognized msg))).1.comp.status =
        orFallback msg notRecognizedFallback) ∧
    ((sysStep s (Event.complete (Outcome.notRecognized msg))).1.comp.loading = false) ∧
    ((sysStep s (Event.complete (Outcome.transportErr msg))).1.comp.status =
        orFallback msg notRecognizedFallback) ∧
    ((sysStep s (Event.complete (Outcome.transportErr msg))).1.comp.loading = false) ∧
    (orFallback msg notRecognizedFallback ≠ successMarker →
      armed (sysStep s (Event.complete (Outcome.notRecognized msg))).1 ∧
      armed (sysStep s (Event.complete (Outcome.transportErr msg))).1 ∧
      basicIntervalActive
        (sysStep s (Event.complete (Outcome.notRecognized msg))).1.comp = true) := by
  have hres : ∀ o : Outcome,
      restartIfChanged s.comp (scanFaceAsync s.comp o).1 s.vars = ⟨0, 0⟩ := by
    intro o
    apply restartIfChanged_of_ne
    intro hcon
    have h1 := hcon.1
    rw [hl, scanFaceAsync_loading] at h1
    cases h1
  have e1 : (sysStep s (Event.complete (Outcome.notRecognized msg))).1 =
      ⟨(scanFaceAsync s.comp (Outcome.notRecognized msg)).1, ⟨0, 0⟩, s.camera⟩ := by
    simp only [sysStep, hl, if_true, hres]
  have e2 : (sysStep s (Event.complete (Outcome.transportErr msg))).1 =
      ⟨(scanFaceAsync s.comp (Outcome.transportErr msg)).1, ⟨0, 0⟩, s.camera⟩ := by
    simp only [sysStep, hl, if_true, hres]
  rw [e1, e2]
  refine ⟨rfl, rfl, rfl, rfl, ?_⟩
  intro hne
  refine ⟨?_, ?_, ?_⟩
  · exact armed_of _ rfl hq hne rfl
  · exact armed_of _ rfl hq hne rfl
  · have hq' : (scanFaceAsync s.comp (Outcome.notRecognized msg)).1.qrImage = none := hq
    have hst' : (scanFaceAsync s.comp (Outcome.notRecognized msg)).1.status =
        orFallback msg notRecognizedFallback := rfl
    simp [basicIntervalActive, hq', hst', hne, scanFaceAsync_loading]

/-- C6, witness for the amended theorem. -/
theorem C6_amended_failure_handling_witness :
    ((⟨⟨scanningStatus, true, none, none⟩, ⟨0, 0⟩, none⟩ : SysState).comp.loading
      = true) ∧
    ((⟨⟨scanningStatus, true, none, none⟩, ⟨0, 0⟩, none⟩ : SysState).comp.qrImage
      = none) ∧
    ((sysStep ⟨⟨scanningStatus, true, none, none⟩, ⟨0, 0⟩, none⟩
        (Event.complete (Outcome.notRecognized (some "Unknown face")))).1.comp.status =
      orFallback (some "Unknown face") notRecognizedFallback) ∧
    armed (sysStep ⟨⟨scanningStatus, true, none, none⟩, ⟨0, 0⟩, none⟩
        (Event.complete (Outcome.notRecognized (some "Unknown face")))).1 := by
  have h := C6_amended_failure_handling
    ⟨⟨scanningStatus, true, none, none⟩, ⟨0, 0⟩, none⟩
    (some "Unknown face") rfl rfl
  exact ⟨rfl, rfl, h.1, (h.2.2.2.2 (by decide)).1⟩

/-- C7: invoking `resetScan` with a result displayed clears the stored
QR image and user record, returns the status to idle, leaves the loading
flag and the camera stream untouched, and re-arms the detection loop. -/
theorem C7_reset_rearms (s : SysState) (hr : Reachable s)
    (hq : s.comp.qrImage.isSome) :
    (sysStep s Event.reset).1.comp.qrImage = none ∧
    (sysStep s Event.reset).1.comp.user = none ∧
    (sysStep s Event.reset).1.comp.status = idleStatus ∧
    (sysStep s Event.reset).1.comp.loading = s.comp.loading ∧
    (sysStep s Event.reset).1.camera = s.camera ∧
    armed (sysStep s Event.reset).1 := by
  have hl : s.comp.loading = false := reachable_loadInv s hr hq
  have hrest : restartIfChanged s.comp (resetScan s.comp) s.vars = ⟨0, 0⟩ := by
    apply restartIfChanged_of_ne
    intro hcon
    have h3 := hcon.2.2
    rw [show (resetScan s.comp).qrImage = none from rfl] at h3
    rw [h3] at hq
    cases hq
  have hrs : (sysStep s Event.reset).1 =
      ⟨resetScan s.comp, ⟨0, 0⟩, s.camera⟩ := by
    simp only [sysStep, hrest]
  rw [hrs]
  refine ⟨rfl, rfl, rfl, rfl, rfl, ?_⟩
  apply armed_of
  · exact hl
  · rfl
  · exact fun hcon => (by decide : idleStatus ≠ successMarker) hcon
  · rfl

/-- C7, witness: a reachable state with a displayed result. -/
theorem C7_reset_rearms_witness :
    Reachable (runSys (initSys none) [Event.frame ⟨1, 1⟩, Event.frame ⟨3002, 1⟩,
        Event.complete (Outcome.ok "qr" ⟨"N", "M", "R"⟩)]).1 ∧
    ((runSys (initSys none) [Event.frame ⟨1, 1⟩, Event.frame ⟨3002, 1⟩,
        Event.complete (Outcome.ok "qr" ⟨"N", "M", "R"⟩)]).1.comp.qrImage).isSome ∧
    (sysStep (runSys (initSys none) [Event.frame ⟨1, 1⟩, Event.frame ⟨3002, 1⟩,
        Event.complete (Outcome.ok "qr" ⟨"N", "M", "R"⟩)]).1
      Event.reset).1.comp.qrImage = none ∧
    armed (sysStep (runSys (initSys none) [Event.frame ⟨1, 1⟩,
        Event.frame ⟨3002, 1⟩,
        Event.complete (Outcome.ok "qr" ⟨"N", "M", "R"⟩)]).1 Event.reset).1 := by
  have h := C7_reset_rearms
    (runSys (initSys none) [Event.frame ⟨1, 1⟩, Event.frame ⟨3002, 1⟩,
      Event.complete (Outcome.ok "qr" ⟨"N", "M", "R"⟩)]).1
    ⟨none, [Event.frame ⟨1, 1⟩, Event.frame ⟨3002, 1⟩,
      Event.complete (Outcome.ok "qr" ⟨"N", "M", "R"⟩)], rfl⟩
    (by decide)
  exact ⟨⟨none, _, rfl⟩, by decide, h.1, h.2.2.2.2.2⟩

/-- C8: on unmount every media track of the bound camera stream is
stopped: zero tracks remain active after teardown. -/
theorem C8_unmount_stops_tracks (s : SysState) :
    activeTrackCount (unmount s).camera = 0 := by
  unfold unmount
  cases hc : s.camera with
  | none => rfl
  | some ts =>
    simp only [stopCamera, activeTrackCount, filter_active_map_trackStop,
      List.length_nil]

/-- C9: any event that changes `loading`, `status` or `qrImage` restarts
the detection effect with both `lastScanTime` and `firstDetectionTime`
reinitialized to 0; consequently a completed submission erases the
cooldown record, and on the concrete run below the second trigger fires
1200 ms after the first — gated only by a fresh 1000 ms stability
window, not by the 3000 ms cooldown. -/
theorem C9_effect_restart_erases_cooldown (s : SysState) (e : Event)
    (hchg : (sysStep s e).1.comp.loading ≠ s.comp.loading ∨
            (sysStep s e).1.comp.status ≠ s.comp.status ∨
            (sysStep s e).1.comp.qrImage ≠ s.comp.qrImage) :
    (sysStep s e).1.vars = ⟨0, 0⟩ ∧
    (runSys (initSys none) [Event.frame ⟨4000, 1⟩, Event.frame ⟨5100, 1⟩,
        Event.complete (Outcome.transportErr none), Event.frame ⟨5200, 1⟩,
        Event.frame ⟨6300, 1⟩]).2 = [5100, 6300] ∧
    6300 - 5100 < SCAN_COOLDOWN ∧
    DETECTION_STABILITY_DELAY < 6300 - 5200 := by
  refine ⟨?_, by decide, by decide, by decide⟩
  cases e with
  | frame f =>
    by_cases hd : (detectFaces ⟨s.comp.loading, s.comp.status, s.comp.qrImage⟩
        s.vars f).2 = true
    · simp only [sysStep, hd, if_true] at hchg ⊢
      apply restartIfChanged_of_ne
      intro hcon
      rcases hchg with h | h | h
      · exact h hcon.1.symm
      · exact h hcon.2.1.symm
      · exact h hcon.2.2.symm
    · have hd' : (detectFaces ⟨s.comp.loading, s.comp.status, s.comp.qrImage⟩
          s.vars f).2 = false := by
        cases hh : (detectFaces ⟨s.comp.loading, s.comp.status, s.comp.qrImage⟩
            s.vars f).2
        · rfl
        · exact absurd hh hd
      simp only [sysStep, hd', if_false, Bool.false_eq_true] at hchg
      rcases hchg with h | h | h <;> exact absurd rfl h
  | complete o =>
    by_cases hl : s.comp.loading = true
    · simp only [sysStep, hl, if_true] at hchg ⊢
      apply restartIfChanged_of_ne
      intro hcon
      rcases hchg with h | h | h
      · exact h (hcon.1.symm.trans hl)
      · exact h hcon.2.1.symm
      · exact h hcon.2.2.symm
    · have hl' : s.comp.loading = false := by
        cases hh : s.comp.loading
        · rfl
        · exact absurd hh hl
      simp only [sysStep, hl', if_false, Bool.false_eq_true] at hchg
      rcases hchg with h | h | h <;> exact absurd rfl h
  | reset =>
    simp only [sysStep] at hchg ⊢
    apply restartIfChanged_of_ne
    intro hcon
    rcases hchg with h | h | h
    · exact h hcon.1.symm
    · exact h hcon.2.1.symm
    · exact h hcon.2.2.symm

/-- C9, witness: completing a submission flips `loading`, so the loop
variables are reset. -/
theorem C9_effect_restart_erases_cooldown_witness :
    ((sysStep ⟨⟨scanningStatus, true, none, none⟩, ⟨7, 7⟩, none⟩
        (Event.complete Outcome.nullBlob)).1.comp.loading ≠
      (⟨⟨scanningStatus, true, none, none⟩, ⟨7, 7⟩, none⟩ : SysState).comp.loading) ∧
    (sysStep ⟨⟨scanningStatus, true, none, none⟩, ⟨7, 7⟩, none⟩
      (Event.complete Outcome.nullBlob)).1.vars = ⟨0, 0⟩ :=
  ⟨by decide,
    (C9_effect_restart_erases_cooldown
      ⟨⟨scanningStatus, true, none, none⟩, ⟨7, 7⟩, none⟩
      (Event.complete Outcome.nullBlob) (Or.inl (by decide))).1⟩

/-- C10: a null encoded blob clears `loading`, issues no request, leaves
the status at the in-progress "Scanning face..." value, and modifies no
result or user field. -/
theorem C10_null_blob (s : CState) (hl : s.loading = false)
    (hq : s.qrImage = none) :
    (scanFace s Outcome.nullBlob).1.status = scanningStatus ∧
    (scanFace s Outcome.nullBlob).1.loading = false ∧
    (scanFace s Outcome.nullBlob).1.qrImage = s.qrImage ∧
    (scanFace s Outcome.nullBlob).1.user = s.user ∧
    (scanFace s Outcome.nullBlob).2 = false := by
  have hg : scanFaceSync s =
      ({ s with loading := true, status := scanningStatus }, true) := by
    unfold scanFaceSync
    rw [hl, hq]
    rfl
  have h : scanFace s Outcome.nullBlob =
      ({ s with status := scanningStatus, loading := false }, false) := by
    unfold scanFace
    rw [hg, if_pos rfl]
    rfl
  rw [h]
  exact ⟨rfl, rfl, rfl, rfl, rfl⟩

/-- C10, witness. -/
theorem C10_null_blob_witness :
    ((⟨idleStatus, false, none, some ⟨"N", "M", "R"⟩⟩ : CState).loading = false) ∧
    (scanFace ⟨idleStatus, false, none, some ⟨"N", "M", "R"⟩⟩
        Outcome.nullBlob).1.status = scanningStatus ∧
    (scanFace ⟨idleStatus, false, none, some ⟨"N", "M", "R"⟩⟩
        Outcome.nullBlob).1.loading = false ∧
    (scanFace ⟨idleStatus, false, none, some ⟨"N", "M", "R"⟩⟩
        Outcome.nullBlob).2 = false := by
  have h := C10_null_blob ⟨idleStatus, false, none, some ⟨"N", "M", "R"⟩⟩ rfl rfl
  exact ⟨rfl, h.1, h.2.1, h.2.2.2.2⟩

end FaceScanQR
